import Mathlib

/-!
# Verification of the feeless node core

A shallow embedding of the feeless Nano-protocol client core: Blake2b
hashing (the external `blake2` crate the code calls through
`crate::encoding::blake2b`), proof-of-work difficulty (`src/work.rs`),
seed-to-private derivation (`src/keys/seed.rs`), the state-block ledger
admission pipeline (`src/node/controller/messages.rs`), the handshake
response handler, and the vanity-address search (`src/vanity.rs`).

Bytes are `Nat`s below 256 and byte strings are `List Nat`; 64-bit words
are `Nat` reduced modulo `2 ^ 64` at every arithmetic step.
-/

namespace Feeless

set_option maxRecDepth 100000

/-- Addition of two 64-bit words, wrapping modulo `2 ^ 64`. -/
def add64 (a b : Nat) : Nat := (a + b) % 18446744073709551616

/-- Bitwise xor of two 64-bit words (stays below `2 ^ 64` when both inputs do). -/
def xor64 (a b : Nat) : Nat := Nat.xor a b

/-- Right rotation of a 64-bit word by `r` bits. -/
def rotr64 (x r : Nat) : Nat :=
  (Nat.lor (Nat.shiftRight x r) (Nat.shiftLeft x (64 - r))) % 18446744073709551616

/-- Little-endian interpretation of a byte string as a natural number. -/
def leBytesToNat : List Nat → Nat
  | [] => 0
  | b :: rest => b + 256 * leBytesToNat rest

/-- The `len` low bytes of `n`, little-endian. -/
def natToLeBytes (n : Nat) : Nat → List Nat
  | 0 => []
  | len + 1 => n % 256 :: natToLeBytes (n / 256) len

/-- Big-endian 4-byte encoding of a `u32` (`index.to_be_bytes` / `BytesMut::put_u32`). -/
def beBytesU32 (n : Nat) : List Nat :=
  [n / 16777216 % 256, n / 65536 % 256, n / 256 % 256, n % 256]

/-- Modelled from the spec: `blake2b(n, bytes)` is the external `blake2` crate's
unkeyed Blake2b with digest length `n` (RFC 7693); the crate's source is not in
the repository. Initialisation vector `IV`. -/
def blakeIV : List Nat :=
  [0x6a09e667f3bcc908, 0xbb67ae8584caa73b, 0x3c6ef372fe94f82b, 0xa54ff53a5f1d36f1,
   0x510e527fade682d1, 0x9b05688c2b3e6c1f, 0x1f83d9abfb41bd6b, 0x5be0cd19137e2179]

/-- Blake2b message schedule: row `r % 10` gives the word order of round `r`. -/
def blakeSigma : List (List Nat) :=
  [[0, 1, 2, 3, 4, 5, 6, 7, 8, 9, 10, 11, 12, 13, 14, 15],
   [14, 10, 4, 8, 9, 15, 13, 6, 1, 12, 0, 2, 11, 7, 5, 3],
   [11, 8, 12, 0, 5, 2, 15, 13, 10, 14, 3, 6, 7, 1, 9, 4],
   [7, 9, 3, 1, 13, 12, 11, 14, 2, 6, 5, 10, 4, 0, 15, 8],
   [9, 0, 5, 7, 2, 4, 10, 15, 14, 1, 11, 12, 6, 8, 3, 13],
   [2, 12, 6, 10, 0, 11, 8, 3, 4, 13, 7, 5, 15, 14, 1, 9],
   [12, 5, 1, 15, 14, 13, 4, 10, 0, 7, 6, 3, 9, 2, 8, 11],
   [13, 11, 7, 14, 12, 1, 3, 9, 5, 0, 15, 4, 8, 6, 2, 10],
   [6, 15, 14, 9, 11, 3, 0, 8, 12, 2, 13, 7, 1, 4, 10, 5],
   [10, 2, 8, 4, 7, 6, 1, 5, 15, 11, 9, 14, 3, 12, 13, 0]]

/-- The Blake2b mixing function G acting on positions `a b c d` of the
16-word work vector `v`, mixing in message words `x` and `y`. -/
def blakeG (v : List Nat) (a b c d : Nat) (x y : Nat) : List Nat :=
  let va := add64 (add64 (v.getD a 0) (v.getD b 0)) x
  let vd := rotr64 (xor64 (v.getD d 0) va) 32
  let vc := add64 (v.getD c 0) vd
  let vb := rotr64 (xor64 (v.getD b 0) vc) 24
  let va2 := add64 (add64 va vb) y
  let vd2 := rotr64 (xor64 vd va2) 16
  let vc2 := add64 vc vd2
  let vb2 := rotr64 (xor64 vb vc2) 63
  ((((v.set a va2).set b vb2).set c vc2).set d vd2)

/-- One Blake2b round: eight G applications driven by a sigma row `s`
over the message words `m`. -/
def blakeRound (m : List Nat) (v : List Nat) (s : List Nat) : List Nat :=
  let mi := fun i => m.getD (s.getD i 0) 0
  let v := blakeG v 0 4 8 12 (mi 0) (mi 1)
  let v := blakeG v 1 5 9 13 (mi 2) (mi 3)
  let v := blakeG v 2 6 10 14 (mi 4) (mi 5)
  let v := blakeG v 3 7 11 15 (mi 6) (mi 7)
  let v := blakeG v 0 5 10 15 (mi 8) (mi 9)
  let v := blakeG v 1 6 11 12 (mi 10) (mi 11)
  let v := blakeG v 2 7 8 13 (mi 12) (mi 13)
  blakeG v 3 4 9 14 (mi 14) (mi 15)

/-- A 128-byte block as sixteen little-endian 64-bit words. -/
def blockToWords (block : List Nat) : List Nat :=
  (List.range 16).map (fun i => leBytesToNat ((block.drop (8 * i)).take 8))

/-- The Blake2b compression function F: state `h` (8 words), message block
`m` (16 words), byte counter `t`, final-block flag `last`. -/
def blakeCompress (h : List Nat) (m : List Nat) (t : Nat) (last : Bool) : List Nat :=
  let v := h ++ blakeIV
  let v := v.set 12 (xor64 (v.getD 12 0) (t % 18446744073709551616))
  let v := v.set 13 (xor64 (v.getD 13 0) (t / 18446744073709551616))
  let v := if last then v.set 14 (xor64 (v.getD 14 0) 18446744073709551615) else v
  let v := (List.range 12).foldl (fun v i => blakeRound m v (blakeSigma.getD (i % 10) [])) v
  (List.range 8).map (fun i => xor64 (xor64 (h.getD i 0) (v.getD i 0)) (v.getD (i + 8) 0))

/-- Message loop of Blake2b: consume 128-byte blocks, zero-padding the last
one. `fuel` bounds the recursion; `msg.length + 1` always suffices. -/
def blakeLoop : Nat → List Nat → List Nat → Nat → List Nat
  | 0, h, _, _ => h
  | fuel + 1, h, msg, t =>
    if msg.length ≤ 128 then
      blakeCompress h (blockToWords (msg ++ List.replicate (128 - msg.length) 0))
        (t + msg.length) true
    else
      blakeLoop fuel
        (blakeCompress h (blockToWords (msg.take 128)) (t + 128) false)
        (msg.drop 128) (t + 128)

/-- Modelled from the spec: `blake2b(n, bytes) → [u8; n]` (§4.2), the unkeyed
variable-digest-length Blake2b of RFC 7693 that `crate::encoding::blake2b`
wraps; the digest is the first `outLen` bytes of the little-endian state. -/
def blake2b (outLen : Nat) (msg : List Nat) : List Nat :=
  let h0 := blakeIV.set 0 (xor64 (blakeIV.getD 0 0) (Nat.lor 0x01010000 outLen))
  let hFinal := blakeLoop (msg.length + 1) h0 msg 0
  ((hFinal.map (fun w => natToLeBytes w 8)).flatten).take outLen

/-! ## Proof of work (`src/work.rs`) -/

/-- `Subject` from `src/work.rs`: the value a proof of work is bound to,
either a block hash or a public key (each 32 bytes). -/
inductive Subject where
  | hash (h : List Nat)
  | public (p : List Nat)

/-- `Subject::to_bytes`. -/
def Subject.to_bytes : Subject → List Nat
  | .hash h => h
  | .public p => p

/-- Modelled from the spec: `Difficulty::from_le_slice` reads the 8-byte
digest as a little-endian 64-bit value (`src/difficulty.rs` is not among the
provided sources; §4.3 gives `d = LE64(...)`). -/
def Difficulty.from_le_slice (bytes : List Nat) : Nat := leBytesToNat bytes

/-- Modelled from the spec: `Difficulty::is_more_than(threshold)` is
`self ≥ threshold` (§4.3). -/
def Difficulty.is_more_than (d threshold : Nat) : Bool := threshold ≤ d

/-- `Work::hash` from `src/work.rs`: Blake2b with an 8-byte digest
(`Work::LEN = 8`). -/
def Work.hash (work_and_subject : List Nat) : List Nat := blake2b 8 work_and_subject

/-- `Work::get_difficulty` from `src/work.rs`: the work bytes are reversed,
the subject bytes appended, the result hashed to 8 bytes and read
little-endian. The only fallible step in the source is the length check in
`Difficulty::from_le_slice`, which always succeeds on the 8-byte digest. -/
def Work.get_difficulty (work : List Nat) (subject : Subject) : Nat :=
  let reversed_work := work.reverse
  let work_and_subject := reversed_work ++ subject.to_bytes
  Difficulty.from_le_slice (Work.hash work_and_subject)

/-- `Work::verify` from `src/work.rs`. -/
def Work.verify (work : List Nat) (subject : Subject) (threshold : Nat) : Bool :=
  Difficulty.is_more_than (Work.get_difficulty work subject) threshold

/-! ## Seed derivation (`src/keys/seed.rs`) -/

/-- `Seed::derive` from `src/keys/seed.rs`: hash the seed bytes followed by
the big-endian `u32` index to 32 bytes (`Seed::LEN`), then convert to a
`Private` through `Private::try_from`, whose length check is the `.expect`
in the source; `none` models that `expect` panicking. -/
def Seed.derive (seed : List Nat) (index : Nat) : Option (List Nat) :=
  let buf := seed ++ beBytesU32 index
  let result := blake2b 32 buf
  if result.length = 32 then some result else none

/-! ## Block data model

The `blocks` module itself is not among the provided sources (only
`open_block.rs` is); the shapes below are reconstructed from the fields the
provided sources use (`src/node/controller/messages.rs` and its tests) and
from spec §3. -/

/-- The `previous` field of a state block: a chain link or an account
opener (all-zero on the wire). -/
inductive Previous where
  | block (hash : List Nat)
  | «open»
  deriving DecidableEq

/-- The state-block `link` field; the second component of `Source` and
`DestinationAccount` is the amount attached by `decide_link_type` (the
arities match the patterns in `src/node/controller/messages.rs`). -/
inductive Link where
  | nothing
  | source (hash : List Nat) (amount : Nat)
  | destinationAccount (account : List Nat) (amount : Nat)
  | unsure (raw : List Nat)
  deriving DecidableEq

/-- Block type tags, as listed in spec §4.6. -/
inductive BlockType where
  | invalid
  | notABlock
  | send
  | receive
  | «open»
  | change
  | state
  deriving DecidableEq

/-- `StateBlock`, fields as in the test fixture of
`src/node/controller/messages.rs` (balance is `Rai`, a 128-bit unsigned). -/
structure StateBlock where
  account : List Nat
  previous : Previous
  representative : List Nat
  balance : Nat
  link : Link
  work : Option (List Nat)
  signature : Option (List Nat)
  deriving DecidableEq

/-- `SendBlock` (spec §3: `Send{previous,destination,balance}`). -/
structure SendBlock where
  previous : List Nat
  destination : List Nat
  balance : Nat
  deriving DecidableEq

/-- `ReceiveBlock` (spec §3: `Receive{previous,source}`). -/
structure ReceiveBlock where
  previous : List Nat
  source : List Nat
  deriving DecidableEq

/-- `OpenBlock` from `src/blocks/open_block.rs`. -/
structure OpenBlock where
  source : List Nat
  representative : List Nat
  account : List Nat
  deriving DecidableEq

/-- `ChangeBlock` (spec §3: `Change{previous,representative}`). -/
structure ChangeBlock where
  previous : List Nat
  representative : List Nat
  deriving DecidableEq

/-- The unified `Block` record the controller stores: a type tag, the
state-block fields, and the per-account `is_head` marker the ledger
maintains (read through `Block::is_head()` in
`src/node/controller/messages.rs`). -/
structure Block where
  block_type : BlockType
  account : List Nat
  previous : Previous
  representative : List Nat
  balance : Nat
  link : Link
  work : Option (List Nat)
  signature : Option (List Nat)
  is_head : Bool
  deriving DecidableEq

/-- `Block::from_state_block` as used by `state_block_handler`. -/
def Block.from_state_block (sb : StateBlock) : Block :=
  { block_type := BlockType.state
    account := sb.account
    previous := sb.previous
    representative := sb.representative
    balance := sb.balance
    link := sb.link
    work := sb.work
    signature := sb.signature
    is_head := false }

/-- Wire bytes of the `previous` field: the hash, or 32 zero bytes for an
account-opening block (spec §3). -/
def Previous.to_bytes : Previous → List Nat
  | .block h => h
  | .«open» => List.replicate 32 0

/-- Wire bytes of the 32-byte `link` field (spec §3). -/
def Link.to_bytes : Link → List Nat
  | .nothing => List.replicate 32 0
  | .source h _ => h
  | .destinationAccount a _ => a
  | .unsure raw => raw

/-- Modelled from the spec: the fixed 32-byte domain separator of the state
block hash (§3); the value 6 is the `State` block-type code (§4.6). -/
def statePreamble : List Nat := List.replicate 31 0 ++ [6]

/-- Modelled from the spec: `Block::hash` for a state block (§3):
Blake2b-256 of the domain separator followed by
`account ‖ previous ‖ representative ‖ balance(BE128) ‖ link`. The hash is a
function of these fields only — in particular not of `is_head`, `work` or
`signature`. -/
def Block.hash (b : Block) : List Nat :=
  blake2b 32
    (statePreamble ++ b.account ++ b.previous.to_bytes ++ b.representative
      ++ (natToLeBytes b.balance 16).reverse ++ b.link.to_bytes)

/-- `StateBlock::try_from(Block)` as called by `previous_as_account_info`:
only a `State`-typed block converts back. -/
def StateBlock.try_from_block (b : Block) : Except String StateBlock :=
  if b.block_type = BlockType.state then
    Except.ok
      { account := b.account
        previous := b.previous
        representative := b.representative
        balance := b.balance
        link := b.link
        work := b.work
        signature := b.signature }
  else
    Except.error "block is not a state block"

/-- Modelled from the spec: `StateBlock::decide_link_type` (§4.4)
reinterprets a raw link once the balance delta against the previous block is
known: a decrease makes it a destination account (send), an increase a
source hash (receive), equality with an all-zero link a change. Its
definition is not among the provided sources; the call shape is
`decide_link_type(is_send, amount)`. -/
def StateBlock.decide_link_type (sb : StateBlock) (is_send : Bool) (amount : Nat) :
    StateBlock :=
  match sb.link with
  | Link.unsure raw =>
    if is_send then { sb with link := Link.destinationAccount raw amount }
    else if amount = 0 && decide (raw = List.replicate 32 0) then
      { sb with link := Link.nothing }
    else { sb with link := Link.source raw amount }
  | _ => sb

/-! ## Ledger store and admission pipeline (`src/node/controller/messages.rs`) -/

/-- Modelled from the spec: the `MemoryState` / `LedgerStore` the controller
speaks to (§4.5) — its implementation is not among the provided sources. The
core requires only keyed lookup by block hash; the store is an association
list from hash to stored block. -/
abbrev Store := List (List Nat × Block)

/-- Modelled from the spec: `get_block_by_hash` — keyed lookup by block
hash (§4.5, §6). -/
def Store.get_block_by_hash (store : Store) (h : List Nat) : Option Block :=
  match store with
  | [] => none
  | (k, b) :: rest => if k = h then some b else Store.get_block_by_hash rest h

/-- Modelled from the spec: `add_block` — "insert new_block as head"
(§4.5, `append_head`), keyed under the block's hash. -/
def Store.add_block (store : Store) (b : Block) : Store :=
  (Block.hash b, { b with is_head := true }) :: store

/-- `Controller::block_existed` from `src/node/controller/messages.rs`:
the block exists when lookup by hash succeeds. -/
def block_existed (store : Store) (block_hash : List Nat) : Bool :=
  (Store.get_block_by_hash store block_hash).isSome

/-- `Controller::previous_as_account_info` from
`src/node/controller/messages.rs`: returns the previous block when it is a
head block and a state block (no account comparison appears in the source);
a stored non-head or non-state previous is an error, an absent previous is
`none`. -/
def previous_as_account_info (store : Store) (previous : List Nat) :
    Except String (Option StateBlock) :=
  match Store.get_block_by_hash store previous with
  | some previous_block =>
    if previous_block.is_head && decide (previous_block.block_type = BlockType.state) then
      match StateBlock.try_from_block previous_block with
      | Except.ok sb => Except.ok (some sb)
      | Except.error e => Except.error e
    else
      Except.error "Previous block existed but is not currently supported!"
  | none => Except.ok none

/-- `Controller::process_block_with_previous` from
`src/node/controller/messages.rs`: resolve the previous block, compute the
balance delta, classify the link. An absent previous only logs
("Block before ... is not found!") and returns `Ok`; the `panic!` on an
`Unsure` link after classification is modelled as an error result. -/
def process_block_with_previous (store : Store) (state_block : StateBlock)
    (_block_hash : List Nat) : Except String Unit :=
  match state_block.previous with
  | Previous.«open» => Except.ok ()
  | Previous.block previous_hash =>
    match previous_as_account_info store previous_hash with
    | Except.error e => Except.error e
    | Except.ok none => Except.ok ()
    | Except.ok (some previous_block) =>
      let is_send := decide (state_block.balance < previous_block.balance)
      let amount :=
        if is_send then previous_block.balance - state_block.balance
        else state_block.balance - previous_block.balance
      let state_block := state_block.decide_link_type is_send amount
      match state_block.link with
      | Link.nothing => Except.ok ()
      | Link.source _ _ => Except.ok ()
      | Link.destinationAccount _ _ => Except.ok ()
      | Link.unsure _ =>
        Except.error "Unexpected error! Was `decide_link_type` called?"

/-- `Controller::process_valid_existing_state_block` from
`src/node/controller/messages.rs`. In the source the `Previous::Block` arm
calls `Controller::process_block_with_previous(self, ...)` WITHOUT `.await`:
the future is created and immediately dropped, so none of its checks run and
no error can propagate; both arms therefore return `Ok(())`. -/
def process_valid_existing_state_block (_store : Store) (state_block : StateBlock)
    (_block_hash : List Nat) : Except String Unit :=
  match state_block.previous with
  | Previous.block _ => Except.ok ()
  | Previous.«open» => Except.ok ()

/-- The three logged outcomes of `state_block_handler`, one per branch of
the `if` chain in the source (`tracing::info!` messages "already exists!",
"has invalid signature!", "will be added"). -/
inductive AdmitOutcome where
  | alreadyExists
  | invalidSignature
  | added
  deriving DecidableEq

/-- `Controller::state_block_handler` from
`src/node/controller/messages.rs`. `verify_self_signature` abstracts the
Ed25519 check `Block::verify_self_signature` (external crypto whose source
is not provided); `true` stands for its `Ok` result. -/
def state_block_handler (verify_self_signature : Block → Bool) (store : Store)
    (state_block : StateBlock) : Except String (AdmitOutcome × Store) :=
  let block := Block.from_state_block state_block
  let block_hash := Block.hash block
  if block_existed store block_hash then
    Except.ok (AdmitOutcome.alreadyExists, store)
  else if !verify_self_signature block then
    Except.ok (AdmitOutcome.invalidSignature, store)
  else
    match process_valid_existing_state_block store state_block block_hash with
    | Except.error e => Except.error e
    | Except.ok () => Except.ok (AdmitOutcome.added, Store.add_block store block)

/-- `BlockHolder` from the `Publish` message: one constructor per block
type, as matched in `handle_publish`. -/
inductive BlockHolder where
  | send (b : SendBlock)
  | receive (b : ReceiveBlock)
  | «open» (b : OpenBlock)
  | change (b : ChangeBlock)
  | state (b : StateBlock)
  deriving DecidableEq

/-- Result of `handle_publish`: either a `todo!` panic (which unwinds before
touching the ledger — the store it carries is the untouched one) or a normal
return with the resulting store. -/
inductive PublishResult where
  | panicked (msg : String) (store : Store)
  | ok (store : Store)
  deriving DecidableEq

/-- `Controller::handle_publish` from `src/node/controller/messages.rs`.
The `Send`, `Receive`, `Open` and `Change` arms are `todo!(...)` in the
source and panic. In the `State` arm the source binds
`Controller::state_block_handler(self, state_block)` to `_block` WITHOUT
`.await`: the future is created and dropped, the admission pipeline never
runs, and the function returns `Ok(())` with the store untouched. -/
def handle_publish (_verify_self_signature : Block → Bool) (store : Store)
    (block_holder : BlockHolder) : PublishResult :=
  match block_holder with
  | BlockHolder.send _ => PublishResult.panicked "Received a send block" store
  | BlockHolder.receive _ => PublishResult.panicked "Received a receive block" store
  | BlockHolder.«open» _ => PublishResult.panicked "Received an open block" store
  | BlockHolder.change _ => PublishResult.panicked "Received a change block" store
  | BlockHolder.state _ => PublishResult.ok store

/-! ## Handshake response handling (`src/node/controller/messages.rs`) -/

/-- The `is_response` arm of `Controller::handle_handshake` from
`src/node/controller/messages.rs`: look up the cookie stored for the remote
socket address; with no cookie, warn and return `Ok(())`; with a cookie and
`validate_handshakes` set, run the Ed25519 check (abstracted as `verify`,
external crypto) and fail — dropping the peer — on a bad signature. -/
def handle_handshake_response (validate_handshakes : Bool)
    (verify : List Nat → List Nat → List Nat → Bool)
    (cookie : Option (List Nat)) (public signature : List Nat) :
    Except String Unit :=
  match cookie with
  | none => Except.ok ()
  | some c =>
    if validate_handshakes then
      if verify public c signature then Except.ok ()
      else Except.error "Invalid signature in handshake response"
    else Except.ok ()

/-- Modelled from the spec: `Public::verify` (§4.2) — "standard Ed25519
verification; returns false on any malformed input rather than raising". Its
definition (`src/keys/public.rs`) is not among the provided sources, only
call sites. The Ed25519 core on well-formed inputs is the external `dalek`
primitive, taken as the argument `core`; malformed inputs (wrong-length key
or signature) yield `false`. -/
def Public.verify (core : List Nat → List Nat → List Nat → Bool)
    (public message signature : List Nat) : Bool :=
  if public.length ≠ 32 then false
  else if signature.length ≠ 64 then false
  else core public message signature

/-! ## Vanity address search (`src/vanity.rs`) -/

/-- `Secret` from `src/vanity.rs`: the three kinds of secret a vanity
search can emit (a mnemonic phrase — its word list — a seed, a private
key). -/
inductive Secret where
  | phrase (words : List (List Nat))
  | seed (bytes : List Nat)
  | «private» (bytes : List Nat)
  deriving DecidableEq

/-- `SecretResult` from `src/vanity.rs`: an emitted secret together with
the address derived from it. Addresses are UTF-8 byte strings — Rust's
`&addr[offset..]`, `starts_with` and `ends_with` operate on bytes. -/
structure SecretResult where
  secret : Secret
  address : List Nat
  deriving DecidableEq

/-- `Match` from `src/vanity.rs`. The `Regex` variant carries the compiled
regex's `is_match` predicate (the regex engine is the external `regex`
crate). -/
inductive Match where
  | startOrEnd (s : List Nat)
  | start (s : List Nat)
  | «end» (s : List Nat)
  | regex (is_match : List Nat → Bool)

/-- `SearchOffset` from `src/vanity.rs`: character position in the address
where the search starts — 5 includes the first digit after `nano_`, 6 skips
it. -/
inductive SearchOffset where
  | firstDigit
  | skipFirstDigit

/-- The numeric values of the `SearchOffset` discriminants (`= 5`, `= 6` in
the source). -/
def SearchOffset.toNat : SearchOffset → Nat
  | .firstDigit => 5
  | .skipFirstDigit => 6

/-- `Vanity::single_attempt` from `src/vanity.rs`. The source draws a random
secret and derives its address (`to_address`, external Ed25519 + base32
encoding); both are taken as arguments here. The body slices the address at
the search offset and keeps the result only when the match succeeds. -/
def single_attempt (matchSpec : Match) (search_offset : SearchOffset)
    (to_address : Secret → List Nat) (secret : Secret) : Option SecretResult :=
  let address := to_address secret
  let searchable := address.drop search_offset.toNat
  let good :=
    match matchSpec with
    | Match.startOrEnd s => s.isPrefixOf searchable || s.isSuffixOf searchable
    | Match.start s => s.isPrefixOf searchable
    | Match.«end» s => s.isSuffixOf searchable
    | Match.regex is_match => is_match searchable
  if good then some { secret := secret, address := address } else none

/-- The sends of `Vanity::single_threaded_worker` from `src/vanity.rs` over
a sequence of drawn secrets: exactly the successful attempts reach
`tx.blocking_send`. -/
def single_threaded_worker_sends (matchSpec : Match) (search_offset : SearchOffset)
    (to_address : Secret → List Nat) (secrets : List Secret) : List SecretResult :=
  secrets.filterMap (single_attempt matchSpec search_offset to_address)

/-- The requested match, stated on an address as the spec describes it:
taken from the search offset onward, the address starts with, ends with, or
matches the pattern according to the `Match` variant. -/
def matches_at (matchSpec : Match) (offset : Nat) (address : List Nat) : Bool :=
  match matchSpec with
  | Match.startOrEnd s => s.isPrefixOf (address.drop offset) || s.isSuffixOf (address.drop offset)
  | Match.start s => s.isPrefixOf (address.drop offset)
  | Match.«end» s => s.isSuffixOf (address.drop offset)
  | Match.regex is_match => is_match (address.drop offset)

/-! ## Concrete fixtures

Byte-level constants from the source tests: the work/difficulty fixtures of
`src/work.rs` (`tests::verify`) and the state block of
`src/node/controller/messages.rs`
(`should_not_add_block_if_signature_is_invalid`). -/

/-- Work `c3f097857cc7106b` from the `src/work.rs` test fixture. -/
def fixtureWork1 : List Nat := [195, 240, 151, 133, 124, 199, 16, 107]

/-- Subject hash `2387...79b8` from the `src/work.rs` test fixture. -/
def fixtureHash1 : List Nat :=
  [35, 135, 118, 113, 104, 249, 69, 61, 176, 236, 162, 39, 199, 157, 126, 122,
   49, 183, 140, 175, 181, 139, 217, 205, 238, 99, 8, 129, 199, 9, 121, 184]

/-- Subject hash `2387...79ba` from the `src/work.rs` test fixture. -/
def fixtureHash2 : List Nat :=
  [35, 135, 118, 113, 104, 249, 69, 61, 176, 236, 162, 39, 199, 157, 126, 122,
   49, 183, 140, 175, 181, 139, 217, 205, 238, 99, 8, 129, 199, 9, 121, 186]

/-- The all-zero work `0000000000000000` of the last `src/work.rs` fixture. -/
def fixtureWorkZero : List Nat := [0, 0, 0, 0, 0, 0, 0, 0]

/-- Account `570E...A4B0` of the controller test fixture. -/
def fixtureAccount : List Nat :=
  [87, 14, 223, 197, 102, 81, 251, 188, 154, 239, 229, 176, 118, 157, 189, 33,
   6, 20, 160, 192, 230, 150, 47, 92, 160, 234, 47, 255, 76, 8, 164, 176]

/-- Previous hash `C5C4...43E9` of the controller test fixture; no block
with this hash is ever stored. -/
def fixturePrevious : List Nat :=
  [197, 196, 117, 214, 153, 206, 237, 84, 111, 236, 46, 58, 108, 50, 177, 84,
   74, 178, 198, 4, 213, 141, 115, 43, 125, 155, 171, 45, 106, 30, 67, 233]

/-- Representative `7194...DCCD` of the controller test fixture. -/
def fixtureRepresentative : List Nat :=
  [113, 148, 69, 43, 121, 151, 169, 245, 171, 178, 244, 52, 219, 1, 12, 161,
   139, 90, 39, 21, 209, 65, 249, 207, 166, 74, 41, 107, 62, 180, 220, 205]

/-- The state block of `should_not_add_block_if_signature_is_invalid`:
balance 1344000000000000000000000000000 raw, link `Nothing`, no work, and
the all-zero (invalid) signature. -/
def fixtureStateBlock : StateBlock :=
  { account := fixtureAccount
    previous := Previous.block fixturePrevious
    representative := fixtureRepresentative
    balance := 1344000000000000000000000000000
    link := Link.nothing
    work := none
    signature := some (List.replicate 64 0) }

deriving instance DecidableEq for Except

/-! ## Helper lemmas -/

theorem natToLeBytes_length (n len : Nat) : (natToLeBytes n len).length = len := by
  induction len generalizing n with
  | zero => rfl
  | succ k ih => simp [natToLeBytes, ih]

theorem blakeCompress_length (h m : List Nat) (t : Nat) (last : Bool) :
    (blakeCompress h m t last).length = 8 := by
  simp [blakeCompress]

theorem blakeLoop_length (fuel : Nat) (h msg : List Nat) (t : Nat) (hh : h.length = 8) :
    (blakeLoop fuel h msg t).length = 8 := by
  induction fuel generalizing h msg t with
  | zero => simpa [blakeLoop] using hh
  | succ k ih =>
    by_cases hc : msg.length ≤ 128
    · simp [blakeLoop, hc, blakeCompress_length]
    · simp only [blakeLoop, hc, if_false]
      exact ih _ _ _ (blakeCompress_length ..)

theorem flatten_natToLeBytes_length (l : List Nat) :
    ((l.map (fun w => natToLeBytes w 8)).flatten).length = 8 * l.length := by
  induction l with
  | nil => rfl
  | cons w rest ih =>
    simp [natToLeBytes_length, ih, Nat.mul_succ, Nat.mul_add]
    omega

theorem blake2b_length (outLen : Nat) (msg : List Nat) (h : outLen ≤ 64) :
    (blake2b outLen msg).length = outLen := by
  unfold blake2b
  rw [List.length_take, flatten_natToLeBytes_length, blakeLoop_length]
  · omega
  · simp [blakeIV]

theorem hash_ignores_is_head (b : Block) :
    Block.hash { b with is_head := true } = Block.hash b := rfl

/-! ## Claim theorems -/

/-- C3: for every 8-byte work candidate `w`, subject `s` and 64-bit
threshold `t`, `verify(w, s, t)` returns true iff the difficulty
`LE64(Blake2b-8(reverse(w_bytes) ‖ s_bytes))` is at least `t`, and
`get_difficulty` computes exactly that value. -/
theorem work_verify_iff_difficulty (w : List Nat) (s : Subject) (t : Nat)
    (_hw : w.length = 8) :
    (Work.verify w s t = true ↔ t ≤ leBytesToNat (blake2b 8 (w.reverse ++ s.to_bytes)))
    ∧ Work.get_difficulty w s = leBytesToNat (blake2b 8 (w.reverse ++ s.to_bytes)) := by
  constructor
  · simp [Work.verify, Work.get_difficulty, Work.hash, Difficulty.is_more_than,
      Difficulty.from_le_slice]
  · rfl

/-- Witness for C3 at the first `src/work.rs` test fixture. -/
theorem work_verify_iff_difficulty_witness :
    fixtureWork1.length = 8
    ∧ ((Work.verify fixtureWork1 (Subject.hash fixtureHash1) 18446743798831644672 = true
          ↔ 18446743798831644672
              ≤ leBytesToNat (blake2b 8 (fixtureWork1.reverse ++ (Subject.hash fixtureHash1).to_bytes)))
        ∧ Work.get_difficulty fixtureWork1 (Subject.hash fixtureHash1)
            = leBytesToNat (blake2b 8 (fixtureWork1.reverse ++ (Subject.hash fixtureHash1).to_bytes))) :=
  ⟨by decide,
   work_verify_iff_difficulty fixtureWork1 (Subject.hash fixtureHash1)
     18446743798831644672 (by decide)⟩

/-- C7: the `src/work.rs` test fixtures — on subject hash `2387...79b8` the
work `c3f097857cc7106b` has difficulty `fffffff867b3146b` and verifies
against threshold `ffffffc000000000`; on subject hash `2387...79ba` the
all-zero work has difficulty `357abcab02726362` and does not verify against
the same threshold. -/
theorem work_fixture_values :
    Work.get_difficulty fixtureWork1 (Subject.hash fixtureHash1) = 0xfffffff867b3146b
    ∧ Work.verify fixtureWork1 (Subject.hash fixtureHash1) 0xffffffc000000000 = true
    ∧ Work.get_difficulty fixtureWorkZero (Subject.hash fixtureHash2) = 0x357abcab02726362
    ∧ Work.verify fixtureWorkZero (Subject.hash fixtureHash2) 0xffffffc000000000 = false := by
  decide

/-- C8: for every 32-byte seed and u32 index, `Seed::derive` succeeds and
returns the private key whose 32 bytes are Blake2b-256 of the 36-byte
concatenation of the seed bytes and the big-endian index. -/
theorem seed_derive_blake2b (seed : List Nat) (index : Nat)
    (hs : seed.length = 32) (_hi : index < 4294967296) :
    Seed.derive seed index = some (blake2b 32 (seed ++ beBytesU32 index))
    ∧ (seed ++ beBytesU32 index).length = 36
    ∧ (blake2b 32 (seed ++ beBytesU32 index)).length = 32 := by
  refine ⟨?_, ?_, blake2b_length 32 _ (by norm_num)⟩
  · simp [Seed.derive, blake2b_length 32 _ (by norm_num : (32 : Nat) ≤ 64)]
  · simp [hs, beBytesU32]

/-- Witness for C8 at the zero seed and index 0. -/
theorem seed_derive_blake2b_witness :
    (List.replicate 32 0).length = 32
    ∧ (0 : Nat) < 4294967296
    ∧ (Seed.derive (List.replicate 32 0) 0
          = some (blake2b 32 (List.replicate 32 0 ++ beBytesU32 0))
        ∧ (List.replicate 32 0 ++ beBytesU32 0).length = 36
        ∧ (blake2b 32 (List.replicate 32 0 ++ beBytesU32 0)).length = 32) :=
  ⟨by decide, by decide, seed_derive_blake2b (List.replicate 32 0) 0 (by decide) (by decide)⟩

/-- C1: at the failing input — a signature-valid state block whose
`previous` hash is absent from the store — the admission pipeline appends
the block anyway and reports `added`, although the claim (and spec §4.5
step 4) requires admission to stop. In the source the previous-block checks
of `process_block_with_previous` never run because its future is dropped
without `.await`; and even run, they treat an absent previous as non-fatal
(third conjunct) and never compare accounts. -/
theorem admission_ignores_missing_previous :
    Store.get_block_by_hash ([] : Store) fixturePrevious = none
    ∧ state_block_handler (fun _ => true) [] fixtureStateBlock
        = Except.ok (AdmitOutcome.added,
            Store.add_block [] (Block.from_state_block fixtureStateBlock))
    ∧ process_block_with_previous [] fixtureStateBlock
        (Block.hash (Block.from_state_block fixtureStateBlock)) = Except.ok () :=
  ⟨rfl, by decide, rfl⟩

/-- C2: a state block whose self-signature check fails and whose hash is not
yet stored is not appended: `state_block_handler` stops at the signature
branch with the store unchanged, `handle_publish` returns normally with the
store unchanged, and lookup of the block's hash still yields `none`. -/
theorem publish_bad_signature_not_added (verify : Block → Bool) (store : Store)
    (sb : StateBlock)
    (hv : verify (Block.from_state_block sb) = false)
    (habs : Store.get_block_by_hash store (Block.hash (Block.from_state_block sb)) = none) :
    state_block_handler verify store sb = Except.ok (AdmitOutcome.invalidSignature, store)
    ∧ handle_publish verify store (BlockHolder.state sb) = PublishResult.ok store
    ∧ Store.get_block_by_hash store (Block.hash (Block.from_state_block sb)) = none := by
  refine ⟨?_, rfl, habs⟩
  simp [state_block_handler, block_existed, habs, hv]

/-- Witness for C2 at the test fixture of
`should_not_add_block_if_signature_is_invalid` (zero signature, empty
store); the constant-false `verify` is the failing Ed25519 check. -/
theorem publish_bad_signature_not_added_witness :
    (fun _ : Block => false) (Block.from_state_block fixtureStateBlock) = false
    ∧ Store.get_block_by_hash [] (Block.hash (Block.from_state_block fixtureStateBlock)) = none
    ∧ (state_block_handler (fun _ => false) [] fixtureStateBlock
          = Except.ok (AdmitOutcome.invalidSignature, [])
        ∧ handle_publish (fun _ => false) [] (BlockHolder.state fixtureStateBlock)
            = PublishResult.ok []
        ∧ Store.get_block_by_hash [] (Block.hash (Block.from_state_block fixtureStateBlock))
            = none) :=
  ⟨rfl, rfl, publish_bad_signature_not_added (fun _ => false) [] fixtureStateBlock rfl rfl⟩

/-- C4: ledger admission is idempotent — a first admission of a valid,
not-yet-stored state block appends it, and a second admission of the same
block reports `alreadyExists` with the store unchanged, for EVERY
self-signature check `verify2` (the existence check runs first, so the
signature is not re-verified). -/
theorem admission_idempotent (verify : Block → Bool) (store : Store) (sb : StateBlock)
    (h1 : Store.get_block_by_hash store (Block.hash (Block.from_state_block sb)) = none)
    (h2 : verify (Block.from_state_block sb) = true) :
    state_block_handler verify store sb
      = Except.ok (AdmitOutcome.added, Store.add_block store (Block.from_state_block sb))
    ∧ ∀ verify2 : Block → Bool,
        state_block_handler verify2 (Store.add_block store (Block.from_state_block sb)) sb
          = Except.ok (AdmitOutcome.alreadyExists,
              Store.add_block store (Block.from_state_block sb)) := by
  constructor
  · cases hp : sb.previous <;>
      simp [state_block_handler, block_existed, process_valid_existing_state_block,
        h1, h2, hp]
  · intro verify2
    simp [state_block_handler, block_existed, Store.add_block,
      Store.get_block_by_hash, hash_ignores_is_head]

/-- Witness for C4: the fixture block admitted into the empty store with an
accepting signature check, then re-admitted under the constant-false check
(which is never consulted). -/
theorem admission_idempotent_witness :
    Store.get_block_by_hash [] (Block.hash (Block.from_state_block fixtureStateBlock)) = none
    ∧ (fun _ : Block => true) (Block.from_state_block fixtureStateBlock) = true
    ∧ state_block_handler (fun _ => true) [] fixtureStateBlock
        = Except.ok (AdmitOutcome.added,
            Store.add_block [] (Block.from_state_block fixtureStateBlock))
    ∧ state_block_handler (fun _ => false)
          (Store.add_block [] (Block.from_state_block fixtureStateBlock)) fixtureStateBlock
        = Except.ok (AdmitOutcome.alreadyExists,
            Store.add_block [] (Block.from_state_block fixtureStateBlock)) :=
  ⟨rfl, rfl,
   (admission_idempotent (fun _ => true) [] fixtureStateBlock rfl rfl).1,
   (admission_idempotent (fun _ => true) [] fixtureStateBlock rfl rfl).2 (fun _ => false)⟩

/-- C6 counterexample: a `Publish` whose holder is a Send block does not
return normally — `handle_publish` hits `todo!("Received a send block")`
and panics. -/
theorem handle_publish_send_panics :
    handle_publish (fun _ => true) []
        (BlockHolder.send { previous := List.replicate 32 0,
                            destination := List.replicate 32 0, balance := 0 })
      = PublishResult.panicked "Received a send block" []
    ∧ handle_publish (fun _ => true) []
        (BlockHolder.send { previous := List.replicate 32 0,
                            destination := List.replicate 32 0, balance := 0 })
      ≠ PublishResult.ok [] :=
  ⟨rfl, by decide⟩

/-- C6 (amended): for every Send, Receive, Open or Change holder,
`handle_publish` reaches the corresponding `todo!` and panics, leaving the
ledger unchanged (the panic unwinds before any store access); only State
holders return normally. -/
theorem handle_publish_non_state_todo (verify : Block → Bool) (store : Store) :
    (∀ b, handle_publish verify store (BlockHolder.send b)
        = PublishResult.panicked "Received a send block" store)
    ∧ (∀ b, handle_publish verify store (BlockHolder.receive b)
        = PublishResult.panicked "Received a receive block" store)
    ∧ (∀ b, handle_publish verify store (BlockHolder.«open» b)
        = PublishResult.panicked "Received an open block" store)
    ∧ (∀ b, handle_publish verify store (BlockHolder.change b)
        = PublishResult.panicked "Received a change block" store) :=
  ⟨fun _ => rfl, fun _ => rfl, fun _ => rfl, fun _ => rfl⟩

/-- C5: signature verification is a total boolean function — for every
Ed25519 core, public key, message and signature (including malformed,
wrong-length ones) it returns `true` or `false`, and on malformed input it
returns `false` rather than raising. -/
theorem public_verify_total (core : List Nat → List Nat → List Nat → Bool)
    (public message signature : List Nat) :
    (Public.verify core public message signature = true
      ∨ Public.verify core public message signature = false)
    ∧ (public.length ≠ 32 ∨ signature.length ≠ 64 →
        Public.verify core public message signature = false) := by
  constructor
  · cases h : Public.verify core public message signature
    · exact Or.inr rfl
    · exact Or.inl rfl
  · intro h
    unfold Public.verify
    rcases h with h | h
    · simp [h]
    · by_cases hp : public.length = 32 <;> simp [hp, h]

/-- Witness for C5 at empty (malformed) inputs and the constant-true core. -/
theorem public_verify_total_witness :
    (([] : List Nat).length ≠ 32 ∨ ([] : List Nat).length ≠ 64)
    ∧ (Public.verify (fun _ _ _ => true) [] [] [] = true
        ∨ Public.verify (fun _ _ _ => true) [] [] [] = false)
    ∧ Public.verify (fun _ _ _ => true) [] [] [] = false :=
  ⟨by decide,
   (public_verify_total (fun _ _ _ => true) [] [] []).1,
   (public_verify_total (fun _ _ _ => true) [] [] []).2 (by decide)⟩

/-- C9: a handshake response arriving with no cookie stored for the remote
socket address is handled successfully — the handler returns `Ok` without
consulting the signature check (the result is the same for every `verify`)
and without dropping the peer. -/
theorem handshake_missing_cookie_ignored (validate_handshakes : Bool)
    (verify : List Nat → List Nat → List Nat → Bool) (public signature : List Nat) :
    handle_handshake_response validate_handshakes verify none public signature
      = Except.ok () := rfl

/-- `single_attempt` kept as a whole: it emits the derived address exactly
when the requested match holds of it. -/
theorem single_attempt_eq (matchSpec : Match) (off : SearchOffset)
    (ta : Secret → List Nat) (s : Secret) :
    single_attempt matchSpec off ta s
      = if matches_at matchSpec off.toNat (ta s) then
          some { secret := s, address := ta s }
        else none := by
  cases matchSpec <;> rfl

/-- C10: every `SecretResult` a vanity worker sends satisfies the requested
match — from the search offset (5 with the first digit, 6 without) onward
the address starts with, ends with, or matches the pattern per the `Match`
variant — and its address is the one derived from its secret; a secret
whose derived address does not match is never sent. -/
theorem vanity_result_matches (matchSpec : Match) (search_offset : SearchOffset)
    (to_address : Secret → List Nat) :
    (∀ (secrets : List Secret) (r : SecretResult),
        r ∈ single_threaded_worker_sends matchSpec search_offset to_address secrets →
          r.address = to_address r.secret
          ∧ matches_at matchSpec search_offset.toNat r.address = true)
    ∧ (∀ secret : Secret,
        matches_at matchSpec search_offset.toNat (to_address secret) = false →
          single_attempt matchSpec search_offset to_address secret = none) := by
  constructor
  · intro secrets r hr
    obtain ⟨s, _, hfs⟩ := List.mem_filterMap.mp hr
    rw [single_attempt_eq] at hfs
    split at hfs
    · cases hfs
      exact ⟨rfl, by assumption⟩
    · exact absurd hfs (by simp)
  · intro secret h
    rw [single_attempt_eq, h]
    simp

/-- Witness for C10: a one-secret worker run whose derived address
(the bytes of `nano_1b`) matches `Start("b")` at offset 6 and is sent, and
the same address rejected (never sent) under `Start("z")`. -/
theorem vanity_result_matches_witness :
    (SecretResult.mk (Secret.seed []) [110, 97, 110, 111, 95, 49, 98])
        ∈ single_threaded_worker_sends (Match.start [98]) SearchOffset.skipFirstDigit
            (fun _ => [110, 97, 110, 111, 95, 49, 98]) [Secret.seed []]
    ∧ ((SecretResult.mk (Secret.seed []) [110, 97, 110, 111, 95, 49, 98]).address
          = (fun _ : Secret => [110, 97, 110, 111, 95, 49, 98])
              (SecretResult.mk (Secret.seed []) [110, 97, 110, 111, 95, 49, 98]).secret
        ∧ matches_at (Match.start [98]) (SearchOffset.skipFirstDigit).toNat
            (SecretResult.mk (Secret.seed []) [110, 97, 110, 111, 95, 49, 98]).address = true)
    ∧ matches_at (Match.start [122]) (SearchOffset.skipFirstDigit).toNat
        ((fun _ : Secret => [110, 97, 110, 111, 95, 49, 98]) (Secret.seed [])) = false
    ∧ single_attempt (Match.start [122]) SearchOffset.skipFirstDigit
        (fun _ => [110, 97, 110, 111, 95, 49, 98]) (Secret.seed []) = none := by
  refine ⟨?_, ?_, ?_, ?_⟩
  · decide
  · exact (vanity_result_matches (Match.start [98]) SearchOffset.skipFirstDigit
      (fun _ => [110, 97, 110, 111, 95, 49, 98])).1 [Secret.seed []] _ (by decide)
  · decide
  · exact (vanity_result_matches (Match.start [122]) SearchOffset.skipFirstDigit
      (fun _ => [110, 97, 110, 111, 95, 49, 98])).2 (Secret.seed []) (by decide)

end Feeless
